import Mathlib

/-!
Shallow embedding of the Game Blaster / Creative Music System (C/MS) device
core from `src/hardware/gameblaster.cpp`.

The two SAA-1099 synthesizer chips and the two reSIDfp sinc resamplers are
external collaborators: the core only calls `data_w` / `control_w` /
`sound_stream_update` on the chips and `input` / `output` on the resamplers.
They are embedded as records of opaque operations over caller-chosen state
types, so every theorem quantifies over all conforming implementations.
Emulated time (`PIC_FullIndex`, `last_rendered_ms`, `ms_per_render`) is
modelled as rationals, matching the double-precision millisecond clock.
-/

namespace GameBlaster

/-- External SAA-1099 chip collaborator: register writes mutate the opaque
chip state, `render` produces one raw (left, right) sample pair and the
successor state (`sound_stream_update` with a sample count of 1). -/
structure Chip (σ : Type) where
  data_w : σ → Nat → σ
  control_w : σ → Nat → σ
  render : σ → (Int × Int) × σ

/-- External two-pass sinc resampler collaborator: `input` pushes one raw
sample and reports whether an output sample is ready; `output` pops one
resampled value. -/
structure Resampler (ρ : Type) where
  input : ρ → Int → Bool × ρ
  output : ρ → Int × ρ

/-- A rendered stereo frame (`AudioFrame`): left and right resampled values. -/
abbrev Frame := Int × Int

/-- Mutable device state shared by the write handlers and the audio
callback: the render clock `last_rendered_ms`, the FIFO of produced-ahead
frames (front of the list = front of the queue), the two chip states and
the two resampler states. -/
structure GBState (σ ρ : Type) where
  last_rendered_ms : ℚ
  fifo : List Frame
  dev0 : σ
  dev1 : σ
  res0 : ρ
  res1 : ρ

/-- One-frame render primitive `GameBlaster::MaybeRenderFrame`: renders one
raw sample from each chip, sums the two left outputs and the two right
outputs, advances `last_rendered_ms` by one `ms_per_render`, feeds each sum
to the matching resampler, and returns the popped frame when both
resamplers report ready.  The `Bool` component records whether the
`assert(l_ready == r_ready)` in the source holds. -/
def MaybeRenderFrame {σ ρ : Type} (C : Chip σ) (R : Resampler ρ) (ms_per_render : ℚ)
    (s : GBState σ ρ) : Option Frame × Bool × GBState σ ρ :=
  let u0 := C.render s.dev0
  let u1 := C.render s.dev1
  let left_accum := u0.1.1 + u1.1.1
  let right_accum := u0.1.2 + u1.1.2
  let s1 : GBState σ ρ :=
    { s with dev0 := u0.2, dev1 := u1.2,
             last_rendered_ms := s.last_rendered_ms + ms_per_render }
  let li := R.input s1.res0 left_accum
  let ri := R.input s1.res1 right_accum
  let assertOk := li.1 == ri.1
  let s2 : GBState σ ρ := { s1 with res0 := li.2, res1 := ri.2 }
  if li.1 && ri.1 then
    let lo := R.output s2.res0
    let ro := R.output s2.res1
    (some (lo.1, ro.1), assertOk, { s2 with res0 := lo.2, res1 := ro.2 })
  else
    (none, assertOk, s2)

/-- One iteration of the catch-up loop body in `RenderUpToNow`: the loop
itself adds `ms_per_render` to `last_rendered_ms`, then calls
`MaybeRenderFrame` (which adds `ms_per_render` again), and enqueues the
frame when one is ready. -/
def renderLoopStep {σ ρ : Type} (C : Chip σ) (R : Resampler ρ) (ms_per_render : ℚ)
    (s : GBState σ ρ) : GBState σ ρ :=
  let s1 : GBState σ ρ :=
    { s with last_rendered_ms := s.last_rendered_ms + ms_per_render }
  let r := MaybeRenderFrame C R ms_per_render s1
  match r.1 with
  | some f => { r.2.2 with fifo := r.2.2.fifo ++ [f] }
  | none => r.2.2

/-- Fuel-indexed unrolling of `while (last_rendered_ms < now)` in
`RenderUpToNow`; `renderFuel` below always provides enough fuel for the
loop to reach its exit condition, so this matches the C++ while loop. -/
def renderLoop {σ ρ : Type} (C : Chip σ) (R : Resampler ρ) (ms_per_render : ℚ)
    (now : ℚ) : Nat → GBState σ ρ → GBState σ ρ
  | 0, s => s
  | fuel + 1, s =>
    if s.last_rendered_ms < now then
      renderLoop C R ms_per_render now fuel (renderLoopStep C R ms_per_render s)
    else s

/-- An upper bound on the number of catch-up iterations: each iteration
advances the clock by at least `ms_per_render` (in fact by twice that), and
for a nonnegative rational `x = num/den` with `den ≥ 1` we have `x ≤ num`. -/
def renderFuel (ms_per_render now last : ℚ) : Nat :=
  ((now - last) / ms_per_render).num.toNat + 1

/-- `GameBlaster::RenderUpToNow`: `now` is the value `PIC_FullIndex()`
returns at entry and `wake` the result of `channel->WakeUp()`.  On wake the
render clock jumps straight to `now`; otherwise the catch-up loop runs. -/
def RenderUpToNow {σ ρ : Type} (C : Chip σ) (R : Resampler ρ) (ms_per_render : ℚ)
    (wake : Bool) (now : ℚ) (s : GBState σ ρ) : GBState σ ρ :=
  if wake then { s with last_rendered_ms := now }
  else renderLoop C R ms_per_render now
         (renderFuel ms_per_render now s.last_rendered_ms) s

/-- `GameBlaster::WriteDataToLeftDevice`: catches up via `RenderUpToNow`
and then applies the data byte to `devices[0]`. -/
def WriteDataToLeftDevice {σ ρ : Type} (C : Chip σ) (R : Resampler ρ) (ms_per_render : ℚ)
    (wake : Bool) (now : ℚ) (value : Nat) (s : GBState σ ρ) : GBState σ ρ :=
  let s1 := RenderUpToNow C R ms_per_render wake now s
  { s1 with dev0 := C.data_w s1.dev0 value }

/-- `GameBlaster::WriteControlToLeftDevice`: catches up and applies the
control byte to `devices[0]`. -/
def WriteControlToLeftDevice {σ ρ : Type} (C : Chip σ) (R : Resampler ρ) (ms_per_render : ℚ)
    (wake : Bool) (now : ℚ) (value : Nat) (s : GBState σ ρ) : GBState σ ρ :=
  let s1 := RenderUpToNow C R ms_per_render wake now s
  { s1 with dev0 := C.control_w s1.dev0 value }

/-- `GameBlaster::WriteDataToRightDevice`: catches up and applies the data
byte to `devices[1]`. -/
def WriteDataToRightDevice {σ ρ : Type} (C : Chip σ) (R : Resampler ρ) (ms_per_render : ℚ)
    (wake : Bool) (now : ℚ) (value : Nat) (s : GBState σ ρ) : GBState σ ρ :=
  let s1 := RenderUpToNow C R ms_per_render wake now s
  { s1 with dev1 := C.data_w s1.dev1 value }

/-- `GameBlaster::WriteControlToRightDevice`: catches up and applies the
control byte to `devices[1]`. -/
def WriteControlToRightDevice {σ ρ : Type} (C : Chip σ) (R : Resampler ρ) (ms_per_render : ℚ)
    (wake : Bool) (now : ℚ) (value : Nat) (s : GBState σ ρ) : GBState σ ρ :=
  let s1 := RenderUpToNow C R ms_per_render wake now s
  { s1 with dev1 := C.control_w s1.dev1 value }

/-- The four chip write handlers as installed by `Open` (lines 63-66):
`base_port` → data-left, `base_port + 1` → control-left, `base_port + 2` →
data-right, `base_port + 3` → control-right; `none` for any other port. -/
def chipPortWrite {σ ρ : Type} (C : Chip σ) (R : Resampler ρ) (ms_per_render : ℚ)
    (wake : Bool) (now : ℚ) (base port value : Nat) (s : GBState σ ρ) :
    Option (GBState σ ρ) :=
  if port = base then
    some (WriteDataToLeftDevice C R ms_per_render wake now value s)
  else if port = base + 1 then
    some (WriteControlToLeftDevice C R ms_per_render wake now value s)
  else if port = base + 2 then
    some (WriteDataToRightDevice C R ms_per_render wake now value s)
  else if port = base + 3 then
    some (WriteControlToRightDevice C R ms_per_render wake now value s)
  else none

/-- FIFO-drain loop of `GameBlaster::AudioCallback`:
`while (frames_remaining && fifo.size())` pops the front frame, pushes it
to the mixer channel, and decrements the remaining count.  Returns the
pushed frames in order, the remaining FIFO, and the remaining count. -/
def drainLoop : Nat → List Frame → List Frame × List Frame × Nat
  | 0, fifo => ([], fifo, 0)
  | remaining + 1, [] => ([], [], remaining + 1)
  | remaining + 1, f :: rest =>
    let r := drainLoop remaining rest
    (f :: r.1, r.2.1, r.2.2)

/-- Live-render loop of `GameBlaster::AudioCallback`:
`while (frames_remaining)` calls `MaybeRenderFrame` once per remaining
requested frame, pushing the frame to the channel only when one is ready,
and decrements the count unconditionally. -/
def liveLoop {σ ρ : Type} (C : Chip σ) (R : Resampler ρ) (ms_per_render : ℚ) :
    Nat → GBState σ ρ → List Frame × GBState σ ρ
  | 0, s => ([], s)
  | remaining + 1, s =>
    let r := MaybeRenderFrame C R ms_per_render s
    let rest := liveLoop C R ms_per_render remaining r.2.2
    match r.1 with
    | some f => (f :: rest.1, rest.2)
    | none => rest

/-- `GameBlaster::AudioCallback`: drains queued frames first, then renders
the remainder live, and finally sets `last_rendered_ms = PIC_FullIndex()`
(the `now` argument).  Returns the frames pushed to the mixer channel, in
order, together with the final device state. -/
def AudioCallback {σ ρ : Type} (C : Chip σ) (R : Resampler ρ) (ms_per_render : ℚ)
    (now : ℚ) (requested_frames : Nat) (s : GBState σ ρ) :
    List Frame × GBState σ ρ :=
  let d := drainLoop requested_frames s.fifo
  let live := liveLoop C R ms_per_render d.2.2 { s with fifo := d.2.1 }
  (d.1 ++ live.1, { live.2 with last_rendered_ms := now })

/-- `GameBlaster::WriteToDetectionPort`: offsets `+6` and `+7` from the
base port store the byte into `cms_detect_register` (a `uint8_t`); every
other offset leaves it unchanged.  Returns the new register value. -/
def WriteToDetectionPort (base port value reg : Nat) : Nat :=
  if port - base = 6 ∨ port - base = 7 then value % 256 else reg

/-- `GameBlaster::ReadFromDetectionPort`: offset `+4` reads `0x7f`,
offsets `+0xa` and `+0xb` read `cms_detect_register`, and every other
offset reads `0xff`. -/
def ReadFromDetectionPort (base port reg : Nat) : Nat :=
  if port - base = 4 then 0x7f
  else if port - base = 0xa ∨ port - base = 0xb then reg
  else 0xff

/-- Port coverage of the detection read handler as installed by `Open`:
only for the standalone Game Blaster variant, at `base_port` with a width
of 16 ports (offsets `+0` through `+0xf`). -/
def detectionReadInstalled (is_standalone_gameblaster : Bool) (base port : Nat) : Bool :=
  is_standalone_gameblaster && decide (base ≤ port) && decide (port < base + 16)

/-- Byte read through the installed detection read handler: `some` of the
handler's result when the handler covers the port, `none` when no handler
is installed there. -/
def installedDetectionRead (is_standalone_gameblaster : Bool) (base port reg : Nat) :
    Option Nat :=
  if detectionReadInstalled is_standalone_gameblaster base port then
    some (ReadFromDetectionPort base port reg)
  else none

/-- The valid base ports for the standalone Game Blaster variant
(`card_choice == "gb"`), from `Open`. -/
def valid_gb_ports : List Nat := [0x210, 0x220, 0x230, 0x240, 0x250, 0x260]

/-- The valid base ports for the C/MS-on-Sound-Blaster add-on variant,
from `Open`. -/
def valid_cms_ports : List Nat := [0x220, 0x240, 0x260, 0x280, 0x2a0, 0x2c0, 0x2e0, 0x300]

/-- The port set selected by `Open`:
`is_standalone_gameblaster ? valid_gb_ports : valid_cms_ports` where
`is_standalone_gameblaster = (card_choice == "gb")`. -/
def openValidPorts (card_choice : String) : List Nat :=
  if card_choice = "gb" then valid_gb_ports else valid_cms_ports

/-- The port-validity assertion of `Open`
(`assert(contains(valid_ports, base_port))`): `true` exactly when the
requested base port is in the allowed set for the card variant. -/
def openPortAssertOk (card_choice : String) (port_choice : Nat) : Bool :=
  (openValidPorts card_choice).contains port_choice

/-- Filter policy of a mixer channel after `Open` resolves the
`cms_filter` setting: which low-pass parameters were configured, the final
on/off switch, whether a custom filter spec was applied, whether a warning
was logged, and the persisted configuration rewrite, if any. -/
structure FilterEffects where
  configured_lowpass : Option (Nat × Nat)
  lowpass_on : Option Bool
  custom_applied : Bool
  warning_logged : Bool
  persisted : Option (String × String × String)
deriving DecidableEq

/-- Filter resolution in `Open` (lines 98-118): a parseable boolean either
enables the fixed first-order 6000 Hz low-pass filter or switches the
filter off; otherwise the string is tried as a custom filter spec; if that
fails too, `Open` logs a warning, persists `cms_filter = "on"` in the
`sblaster` section, and enables the fixed filter.  `parse_bool_setting`
and `TryParseAndSetCustomFilter` are external collaborators passed in as
functions. -/
def resolveFilterChoice (parse_bool_setting : String → Option Bool)
    (tryParseAndSetCustomFilter : String → Bool) (filter_choice : String) :
    FilterEffects :=
  match parse_bool_setting filter_choice with
  | some true =>
    { configured_lowpass := some (1, 6000), lowpass_on := some true,
      custom_applied := false, warning_logged := false, persisted := none }
  | some false =>
    { configured_lowpass := none, lowpass_on := some false,
      custom_applied := false, warning_logged := false, persisted := none }
  | none =>
    if tryParseAndSetCustomFilter filter_choice then
      { configured_lowpass := none, lowpass_on := none,
        custom_applied := true, warning_logged := false, persisted := none }
    else
      { configured_lowpass := some (1, 6000), lowpass_on := some true,
        custom_applied := false, warning_logged := true,
        persisted := some ("sblaster", "cms_filter", "on") }

/-- A trivial chip used to exercise the engine on concrete inputs: silent
output, inert registers. -/
def trivChip : Chip Unit :=
  { data_w := fun _ _ => (), control_w := fun _ _ => (), render := fun _ => ((0, 0), ()) }

/-- A resampler that reports a ready output frame on every input sample. -/
def readyResampler : Resampler Unit :=
  { input := fun _ _ => (true, ()), output := fun _ => (0, ()) }

/-- A resampler that never reports a ready output frame (e.g. a sinc
resampler still filling its window). -/
def neverReadyResampler : Resampler Unit :=
  { input := fun _ _ => (false, ()), output := fun _ => (0, ()) }

/-- A concrete initial device state for concrete evaluations. -/
def gb0 : GBState Unit Unit :=
  { last_rendered_ms := 0, fifo := [], dev0 := (), dev1 := (), res0 := (), res1 := () }

end GameBlaster

open GameBlaster

/-- C4: when the mixer channel reports it was asleep and is waking
(`channel->WakeUp()` returns `true`), `RenderUpToNow` renders no frame,
enqueues nothing to the FIFO, and sets the render clock directly to `now`:
the whole state is unchanged except `last_rendered_ms := now`. -/
theorem renderUpToNow_wake_resets_clock_only {σ ρ : Type} (C : Chip σ) (R : Resampler ρ)
    (ms_per_render now : ℚ) (s : GBState σ ρ) :
    RenderUpToNow C R ms_per_render true now s = { s with last_rendered_ms := now }
    ∧ (RenderUpToNow C R ms_per_render true now s).fifo = s.fifo := by
  constructor <;> rfl

/-- C5: calling `RenderUpToNow` with the render clock already equal to
`now` (and the channel not waking from sleep) is a complete no-op: the
render clock, FIFO, chip states and resampler states are all unchanged. -/
theorem renderUpToNow_noop_when_current {σ ρ : Type} (C : Chip σ) (R : Resampler ρ)
    (ms_per_render now : ℚ) (s : GBState σ ρ) (h : s.last_rendered_ms = now) :
    RenderUpToNow C R ms_per_render false now s = s := by
  have hfuel : renderFuel ms_per_render now s.last_rendered_ms = 1 := by
    simp [renderFuel, h]
  simp [RenderUpToNow, hfuel, renderLoop, h]

/-- Witness for C5 at a concrete state: `gb0` has render clock 0, and
catching up to `now = 0` leaves it untouched. -/
theorem renderUpToNow_noop_when_current_witness :
    gb0.last_rendered_ms = 0
    ∧ RenderUpToNow trivChip readyResampler 1 false 0 gb0 = gb0 :=
  ⟨rfl, renderUpToNow_noop_when_current trivChip readyResampler 1 0 gb0 rfl⟩

/-- C3: through the write-handler table installed by `Open`, every write
to one of the four chip ports first performs the full `RenderUpToNow`
catch-up and only then applies the byte to the corresponding chip:
`base + 0` → data to `devices[0]`, `base + 1` → control to `devices[0]`,
`base + 2` → data to `devices[1]`, `base + 3` → control to `devices[1]`,
for every byte value and every device state. -/
theorem chip_port_write_catches_up_then_applies {σ ρ : Type} (C : Chip σ) (R : Resampler ρ)
    (ms_per_render : ℚ) (wake : Bool) (now : ℚ) (base value : Nat) (s : GBState σ ρ) :
    chipPortWrite C R ms_per_render wake now base base value s
      = some { RenderUpToNow C R ms_per_render wake now s with
               dev0 := C.data_w (RenderUpToNow C R ms_per_render wake now s).dev0 value }
    ∧ chipPortWrite C R ms_per_render wake now base (base + 1) value s
      = some { RenderUpToNow C R ms_per_render wake now s with
               dev0 := C.control_w (RenderUpToNow C R ms_per_render wake now s).dev0 value }
    ∧ chipPortWrite C R ms_per_render wake now base (base + 2) value s
      = some { RenderUpToNow C R ms_per_render wake now s with
               dev1 := C.data_w (RenderUpToNow C R ms_per_render wake now s).dev1 value }
    ∧ chipPortWrite C R ms_per_render wake now base (base + 3) value s
      = some { RenderUpToNow C R ms_per_render wake now s with
               dev1 := C.control_w (RenderUpToNow C R ms_per_render wake now s).dev1 value } := by
  refine ⟨?_, ?_, ?_, ?_⟩ <;>
    simp [chipPortWrite, WriteDataToLeftDevice, WriteControlToLeftDevice,
          WriteDataToRightDevice, WriteControlToRightDevice]

/-- C7: the one-frame render primitive sums the two chips' raw left
outputs and raw right outputs additively, feeds each sum to the matching
resampler, returns a frame exactly when both resamplers report ready (the
frame being the two popped resampler outputs), records the
`assert(l_ready == r_ready)` condition, and advances the render clock by
one `ms_per_render`. -/
theorem maybeRenderFrame_sums_additively_ready_iff_both {σ ρ : Type} (C : Chip σ)
    (R : Resampler ρ) (ms_per_render : ℚ) (s : GBState σ ρ) :
    (MaybeRenderFrame C R ms_per_render s).1
      = (if (R.input s.res0 ((C.render s.dev0).1.1 + (C.render s.dev1).1.1)).1
            && (R.input s.res1 ((C.render s.dev0).1.2 + (C.render s.dev1).1.2)).1 then
           some ((R.output (R.input s.res0 ((C.render s.dev0).1.1 + (C.render s.dev1).1.1)).2).1,
                 (R.output (R.input s.res1 ((C.render s.dev0).1.2 + (C.render s.dev1).1.2)).2).1)
         else none)
    ∧ (MaybeRenderFrame C R ms_per_render s).2.1
      = ((R.input s.res0 ((C.render s.dev0).1.1 + (C.render s.dev1).1.1)).1
         == (R.input s.res1 ((C.render s.dev0).1.2 + (C.render s.dev1).1.2)).1)
    ∧ (MaybeRenderFrame C R ms_per_render s).2.2.last_rendered_ms
      = s.last_rendered_ms + ms_per_render := by
  unfold MaybeRenderFrame
  refine ⟨?_, ?_, ?_⟩ <;> (dsimp only []; split <;> simp)

/-- C9: `Open`'s port-validity assertion fails exactly when the requested
base port is outside the allowed set of the selected card variant —
`{0x210, 0x220, 0x230, 0x240, 0x250, 0x260}` for the standalone Game
Blaster (`card = "gb"`), `{0x220, 0x240, 0x260, 0x280, 0x2a0, 0x2c0,
0x2e0, 0x300}` for the add-on variant — and in particular the add-on
variant at port 0x210 fails the assertion. -/
theorem open_port_assertion_iff_outside_variant_set :
    (∀ (card : String) (port : Nat),
       openPortAssertOk card port = false ↔
         port ∉ (if card = "gb" then
                   ([0x210, 0x220, 0x230, 0x240, 0x250, 0x260] : List Nat)
                 else [0x220, 0x240, 0x260, 0x280, 0x2a0, 0x2c0, 0x2e0, 0x300]))
    ∧ openPortAssertOk "sb16" 0x210 = false := by
  refine ⟨fun card port => ?_, by decide⟩
  by_cases hc : card = "gb" <;>
    simp [openPortAssertOk, openValidPorts, valid_gb_ports, valid_cms_ports, hc]

/-- C6: detection-register protocol for the standalone Game Blaster:
reading offset +4 returns 0x7f for every register value; writing any byte
to offset +6 or +7 and then reading offset +0xa or +0xb returns that
byte; reading offsets +8 and +9 returns 0xff; and a write at any other
offset covered by the detection write handler (+4 through +0xf) leaves
the detection register unchanged. -/
theorem detection_register_protocol (base reg v o : Nat) (hv : v < 256)
    (ho4 : 4 ≤ o) (ho16 : o < 16) (h6 : o ≠ 6) (h7 : o ≠ 7) :
    ReadFromDetectionPort base (base + 4) reg = 0x7f
    ∧ ReadFromDetectionPort base (base + 0xa) (WriteToDetectionPort base (base + 6) v reg) = v
    ∧ ReadFromDetectionPort base (base + 0xb) (WriteToDetectionPort base (base + 6) v reg) = v
    ∧ ReadFromDetectionPort base (base + 0xa) (WriteToDetectionPort base (base + 7) v reg) = v
    ∧ ReadFromDetectionPort base (base + 0xb) (WriteToDetectionPort base (base + 7) v reg) = v
    ∧ ReadFromDetectionPort base (base + 8) reg = 0xff
    ∧ ReadFromDetectionPort base (base + 9) reg = 0xff
    ∧ WriteToDetectionPort base (base + o) v reg = reg := by
  refine ⟨?_, ?_, ?_, ?_, ?_, ?_, ?_, ?_⟩ <;>
    simp [ReadFromDetectionPort, WriteToDetectionPort, Nat.add_sub_cancel_left,
          Nat.mod_eq_of_lt hv] <;> omega

/-- Witness for C6 at concrete inputs: base port 0x220, register 3, byte
0x55, non-storing write offset +5. -/
theorem detection_register_protocol_witness :
    ((0x55 : Nat) < 256 ∧ 4 ≤ 5 ∧ 5 < 16 ∧ (5 : Nat) ≠ 6 ∧ (5 : Nat) ≠ 7)
    ∧ (ReadFromDetectionPort 0x220 (0x220 + 4) 3 = 0x7f
       ∧ ReadFromDetectionPort 0x220 (0x220 + 0xa)
           (WriteToDetectionPort 0x220 (0x220 + 6) 0x55 3) = 0x55
       ∧ ReadFromDetectionPort 0x220 (0x220 + 0xb)
           (WriteToDetectionPort 0x220 (0x220 + 6) 0x55 3) = 0x55
       ∧ ReadFromDetectionPort 0x220 (0x220 + 0xa)
           (WriteToDetectionPort 0x220 (0x220 + 7) 0x55 3) = 0x55
       ∧ ReadFromDetectionPort 0x220 (0x220 + 0xb)
           (WriteToDetectionPort 0x220 (0x220 + 7) 0x55 3) = 0x55
       ∧ ReadFromDetectionPort 0x220 (0x220 + 8) 3 = 0xff
       ∧ ReadFromDetectionPort 0x220 (0x220 + 9) 3 = 0xff
       ∧ WriteToDetectionPort 0x220 (0x220 + 5) 0x55 3 = 3) :=
  ⟨by decide,
   detection_register_protocol 0x220 3 0x55 5 (by decide) (by decide) (by decide)
     (by decide) (by decide)⟩

/-- C10: for the standalone Game Blaster variant the detection read
handler is installed over the full 16-port range starting at the base
port, so reads at offsets +0 through +3 (the chip write-only ports) are
dispatched to it and return 0xff. -/
theorem detection_read_covers_chip_ports (base reg o : Nat) (ho : o < 4) :
    installedDetectionRead true base (base + o) reg = some 0xff := by
  have hcov : detectionReadInstalled true base (base + o) = true := by
    simp [detectionReadInstalled]
    omega
  have h4 : ¬ (o = 4) := by omega
  have hab : ¬ (o = 0xa ∨ o = 0xb) := by omega
  simp [installedDetectionRead, hcov, ReadFromDetectionPort, Nat.add_sub_cancel_left, h4, hab]

/-- Witness for C10 at a concrete input: read of port 0x222 (offset +2
from base 0x220) with detection register 7 returns 0xff. -/
theorem detection_read_covers_chip_ports_witness :
    (2 : Nat) < 4 ∧ installedDetectionRead true 0x220 (0x220 + 2) 7 = some 0xff :=
  ⟨by decide, detection_read_covers_chip_ports 0x220 7 2 (by decide)⟩

/-- C8: when the `cms_filter` setting parses neither as a boolean nor as
a custom filter specification, `Open` configures the fixed first-order
6000 Hz low-pass filter, switches it on, logs a warning, and rewrites the
persisted `cms_filter` value in the `sblaster` section to `"on"`. -/
theorem filter_fallback_on_unparseable_setting
    (parse_bool_setting : String → Option Bool)
    (tryParseAndSetCustomFilter : String → Bool) (filter_choice : String)
    (hb : parse_bool_setting filter_choice = none)
    (hc : tryParseAndSetCustomFilter filter_choice = false) :
    resolveFilterChoice parse_bool_setting tryParseAndSetCustomFilter filter_choice
      = { configured_lowpass := some (1, 6000), lowpass_on := some true,
          custom_applied := false, warning_logged := true,
          persisted := some ("sblaster", "cms_filter", "on") } := by
  simp [resolveFilterChoice, hb, hc]

/-- Witness for C8 at a concrete input: the spec `"banana"` with a boolean
parser that rejects it and a custom-filter parser that rejects it. -/
theorem filter_fallback_on_unparseable_setting_witness :
    ((fun _ : String => (none : Option Bool)) "banana" = none
     ∧ (fun _ : String => false) "banana" = false)
    ∧ resolveFilterChoice (fun _ => none) (fun _ => false) "banana"
      = { configured_lowpass := some (1, 6000), lowpass_on := some true,
          custom_applied := false, warning_logged := true,
          persisted := some ("sblaster", "cms_filter", "on") } :=
  ⟨⟨rfl, rfl⟩,
   filter_fallback_on_unparseable_setting (fun _ => none) (fun _ => false) "banana" rfl rfl⟩

/-- Unfolding equation for one iteration of the catch-up loop. -/
theorem renderLoop_succ {σ ρ : Type} (C : Chip σ) (R : Resampler ρ) (ms_per_render now : ℚ)
    (fuel : Nat) (s : GBState σ ρ) :
    renderLoop C R ms_per_render now (fuel + 1) s
      = if s.last_rendered_ms < now then
          renderLoop C R ms_per_render now fuel (renderLoopStep C R ms_per_render s)
        else s := rfl

/-- The catch-up loop exits as soon as the render clock is at or past
`now`, whatever fuel remains. -/
theorem renderLoop_exit {σ ρ : Type} (C : Chip σ) (R : Resampler ρ) (ms_per_render now : ℚ)
    (n : Nat) (s : GBState σ ρ) (h : ¬ s.last_rendered_ms < now) :
    renderLoop C R ms_per_render now n s = s := by
  cases n <;> simp [renderLoop, h]

/-- C1: concrete evaluation of the catch-up loop showing the render clock
advancing by two render-quanta per rendered sample.  With
`ms_per_render = 1`, render clock 0 and `now = 1/2`, one loop iteration
runs: the loop body adds one quantum and `MaybeRenderFrame` adds another,
so exactly one sample is rendered (FIFO length 1) while the clock lands on
2 — which exceeds `now` by 3/2, more than one render-quantum, refuting the
claimed one-quantum-per-sample advance and the claimed
`now + ms_per_render` bound. -/
theorem renderUpToNow_two_quanta_per_sample_eval :
    (RenderUpToNow trivChip readyResampler 1 false (1/2) gb0).last_rendered_ms = 2
    ∧ (RenderUpToNow trivChip readyResampler 1 false (1/2) gb0).fifo.length = 1
    ∧ ¬ ((RenderUpToNow trivChip readyResampler 1 false (1/2) gb0).last_rendered_ms
          ≤ 1/2 + 1) := by
  have hstep : renderLoopStep trivChip readyResampler 1 gb0
      = { last_rendered_ms := 2, fifo := [(0, 0)],
          dev0 := (), dev1 := (), res0 := (), res1 := () } := by
    simp [renderLoopStep, MaybeRenderFrame, trivChip, readyResampler, gb0]
    norm_num
  have hrun : RenderUpToNow trivChip readyResampler 1 false (1/2) gb0
      = renderLoop trivChip readyResampler 1 (1/2) (renderFuel 1 (1/2) 0) gb0 := rfl
  have hfuel : renderFuel 1 (1/2) 0 = (((1 : ℚ)/2 - 0) / 1).num.toNat + 1 := rfl
  have hcond : gb0.last_rendered_ms < (1/2 : ℚ) := by norm_num [gb0]
  have hstop : ¬ (renderLoopStep trivChip readyResampler 1 gb0).last_rendered_ms
      < (1/2 : ℚ) := by
    rw [hstep]
    norm_num
  have hs : RenderUpToNow trivChip readyResampler 1 false (1/2) gb0
      = { last_rendered_ms := 2, fifo := [(0, 0)],
          dev0 := (), dev1 := (), res0 := (), res1 := () } := by
    rw [hrun, hfuel, renderLoop_succ, if_pos hcond, renderLoop_exit _ _ _ _ _ _ hstop, hstep]
  rw [hs]
  refine ⟨rfl, rfl, ?_⟩
  norm_num

/-- C2 counterexample: with an empty FIFO, a request for exactly one frame
and a resampler that is not yet ready (e.g. a sinc resampler still filling
its window), `AudioCallback` pushes zero frames to the mixer channel — not
the one frame the claim requires — because the live-render loop decrements
the remaining count even when `MaybeRenderFrame` reports not-ready. -/
theorem audioCallback_pushes_fewer_than_requested :
    (AudioCallback trivChip neverReadyResampler 1 5 1 gb0).1.length = 0
    ∧ (0 : Nat) ≠ 1 := by
  exact ⟨rfl, by decide⟩

/-- The FIFO-drain loop pops exactly the first `n` queued frames, in
queue order, leaving the rest of the FIFO and the unmet remainder of the
request. -/
theorem drainLoop_eq (n : Nat) (fifo : List Frame) :
    drainLoop n fifo = (fifo.take n, fifo.drop n, n - fifo.length) := by
  induction n generalizing fifo with
  | zero => simp [drainLoop]
  | succ m ih =>
    cases fifo with
    | nil => simp [drainLoop]
    | cons f rest => simp [drainLoop, ih]

/-- The live-render loop pushes at most one frame per remaining requested
frame. -/
theorem liveLoop_length_le {σ ρ : Type} (C : Chip σ) (R : Resampler ρ)
    (ms_per_render : ℚ) (n : Nat) (s : GBState σ ρ) :
    (liveLoop C R ms_per_render n s).1.length ≤ n := by
  induction n generalizing s with
  | zero => simp [liveLoop]
  | succ m ih =>
    simp only [liveLoop]
    cases h : (MaybeRenderFrame C R ms_per_render s).1 with
    | none => exact Nat.le_succ_of_le (ih _)
    | some f => simpa using ih _

/-- C2 (amended): `AudioCallback` first pushes the frames popped from the
FIFO, in order (the first `min N |fifo|` queued frames), then performs one
live render step per remaining requested frame, pushing a frame to the
mixer channel only when the resampler reports ready; consequently at most
`N` frames reach the sink (fewer when a live step is not ready), and the
render clock is set to `now` when the callback finishes. -/
theorem audioCallback_drains_then_renders_live {σ ρ : Type} (C : Chip σ) (R : Resampler ρ)
    (ms_per_render now : ℚ) (requested_frames : Nat) (s : GBState σ ρ) :
    (AudioCallback C R ms_per_render now requested_frames s).1
      = s.fifo.take requested_frames
          ++ (liveLoop C R ms_per_render (requested_frames - s.fifo.length)
                { s with fifo := s.fifo.drop requested_frames }).1
    ∧ (AudioCallback C R ms_per_render now requested_frames s).1.length ≤ requested_frames
    ∧ (AudioCallback C R ms_per_render now requested_frames s).2.last_rendered_ms = now := by
  refine ⟨?_, ?_, ?_⟩
  · simp [AudioCallback, drainLoop_eq]
  · have hlive := liveLoop_length_le C R ms_per_render (requested_frames - s.fifo.length)
      { s with fifo := s.fifo.drop requested_frames }
    simp only [AudioCallback, drainLoop_eq, List.length_append, List.length_take]
    omega
  · simp [AudioCallback]
